import Mathlib

/-!
Verification of the Stackd financial projection engine.

The engine is shallowly embedded over the rationals: the source computes in
double-precision floating point, and the claims under verification are stated
in exact real arithmetic, so every source `number` becomes a `ℚ` and every
decimal literal its exact rational value.  Year horizons are whole years
(the source form restricts the horizon field to integers 1..100), so the
exponent `n * t` of the compound factor is a natural number and JS `Math.pow`
becomes `Monoid.npow`.  Fallible / suppressed outputs become `Option`.
-/

namespace Stackd

/-- The five compounding-frequency choices offered by the `CompoundFrequency`
select input. -/
inductive CompoundFrequency
  | Annually
  | SemiAnnually
  | Quarterly
  | Monthly
  | Daily
deriving DecidableEq, Repr

/-- Source `getCompoundFrequencyPerYear`: periods-per-year for each frequency.
The TS `default` branch is unreachable for the closed enum and is dropped. -/
def getCompoundFrequencyPerYear : CompoundFrequency → ℕ
  | .Annually => 1
  | .SemiAnnually => 2
  | .Quarterly => 4
  | .Monthly => 12
  | .Daily => 365

/-- Source `getContributionPerPeriod`: converts a monthly contribution figure
into the per-compounding-period contribution. -/
def getContributionPerPeriod (monthlyContribution : ℚ) :
    CompoundFrequency → ℚ
  | .Annually => monthlyContribution * 12
  | .SemiAnnually => monthlyContribution * 6
  | .Quarterly => monthlyContribution * 3
  | .Monthly => monthlyContribution
  | .Daily => monthlyContribution / (365 / 12)

/-- Result record of `calculateCompoundInterest`. -/
structure ProjectionResult where
  totalBalance : ℚ
  totalContributed : ℚ
  totalInterest : ℚ
deriving DecidableEq, Repr

/-- Source `calculateCompoundInterest`: closed-form compound principal plus
annuity value, with the zero-rate annuity handled linearly. -/
def calculateCompoundInterest (initialInvestment monthlyContribution annualReturn : ℚ)
    (years : ℕ) (frequency : CompoundFrequency) : ProjectionResult :=
  let P := initialInvestment
  let r := annualReturn / 100
  let n : ℕ := getCompoundFrequencyPerYear frequency
  let t := years
  let PMT := getContributionPerPeriod monthlyContribution frequency
  let compoundPrincipal := P * (1 + r / (n : ℚ)) ^ (n * t)
  let annuityValue :=
    if 0 < r then PMT * (((1 + r / (n : ℚ)) ^ (n * t) - 1) / (r / (n : ℚ)))
    else PMT * (n : ℚ) * (t : ℚ)
  let totalBalance := compoundPrincipal + annuityValue
  let totalContributed := P + monthlyContribution * 12 * (t : ℚ)
  { totalBalance := totalBalance
    totalContributed := totalContributed
    totalInterest := totalBalance - totalContributed }

/-- JS `Math.round` on a non-negative value: round half up. -/
def jsRound (q : ℚ) : ℤ := ⌊q + 1 / 2⌋

/-- One point of the chart series produced by `calculateYearlyData`. -/
structure YearlyPoint where
  year : ℕ
  totalBalance : ℚ
  totalContributed : ℚ
  showLabel : Bool
deriving DecidableEq, Repr

/-- The `labelYears` set built inside `calculateYearlyData` (kept as a list;
membership is all that is consumed). -/
def labelYears (years : ℕ) : List ℤ :=
  [0, jsRound ((years : ℚ) * (25 / 100)), jsRound ((years : ℚ) * (50 / 100)),
    jsRound ((years : ℚ) * (75 / 100)), (years : ℤ)]

/-- The body of the `for` loop of `calculateYearlyData` at year `t`. -/
def yearlyPoint (initialInvestment monthlyContribution annualReturn : ℚ)
    (frequency : CompoundFrequency) (years t : ℕ) : YearlyPoint :=
  let r := annualReturn / 100
  let n : ℕ := getCompoundFrequencyPerYear frequency
  let PMT := getContributionPerPeriod monthlyContribution frequency
  let compoundPrincipal := initialInvestment * (1 + r / (n : ℚ)) ^ (n * t)
  let annuityValue :=
    if 0 < r then PMT * (((1 + r / (n : ℚ)) ^ (n * t) - 1) / (r / (n : ℚ)))
    else PMT * (n : ℚ) * (t : ℚ)
  { year := t
    totalBalance := compoundPrincipal + annuityValue
    totalContributed := initialInvestment + monthlyContribution * 12 * (t : ℚ)
    showLabel := decide ((t : ℤ) ∈ labelYears years) }

/-- Source `calculateYearlyData`: one `YearlyPoint` per whole year 0..years. -/
def calculateYearlyData (initialInvestment monthlyContribution annualReturn : ℚ)
    (years : ℕ) (frequency : CompoundFrequency) : List YearlyPoint :=
  (List.range (years + 1)).map
    (yearlyPoint initialInvestment monthlyContribution annualReturn frequency years)

/-- Source `isValidInputs`. -/
def isValidInputs (initial monthly : ℚ) (years : ℕ) (returnRate : ℚ) : Bool :=
  (decide (0 < initial) || decide (0 < monthly)) && decide (0 < years) &&
    decide (years ≤ 100) && decide (0 ≤ returnRate) && decide (returnRate ≤ 100)

/-- The `results` memo of the page component: the projection, or `none` when
the inputs fail validation. -/
def results (initial monthly : ℚ) (years : ℕ) (returnRate : ℚ)
    (frequency : CompoundFrequency) : Option ProjectionResult :=
  if isValidInputs initial monthly years returnRate then
    some (calculateCompoundInterest initial monthly returnRate years frequency)
  else none

/-- The `chartData` memo: the trajectory series, or `none` when invalid. -/
def chartData (initial monthly : ℚ) (years : ℕ) (returnRate : ℚ)
    (frequency : CompoundFrequency) : Option (List YearlyPoint) :=
  if isValidInputs initial monthly years returnRate then
    some (calculateYearlyData initial monthly returnRate years frequency)
  else none

/-- One card of the "What If You Waited?" comparison. -/
structure ComparisonEntry where
  label : String
  years : ℕ
  totalBalance : ℚ
  highlight : Bool
  missedAmount : ℚ
deriving DecidableEq, Repr

/-- The `comparisonScenarios` memo: "Start Now" always, "Wait 5 Years" when
the horizon is at least 5, "Wait 10 Years" when at least 10; `none` when the
inputs fail validation. -/
def comparisonScenarios (initial monthly : ℚ) (years : ℕ) (returnRate : ℚ)
    (frequency : CompoundFrequency) : Option (List ComparisonEntry) :=
  if isValidInputs initial monthly years returnRate then
    let startNow := calculateCompoundInterest initial monthly returnRate years frequency
    let s0 : ComparisonEntry :=
      { label := "Start Now", years := years, totalBalance := startNow.totalBalance,
        highlight := true, missedAmount := 0 }
    let l5 : List ComparisonEntry :=
      if 5 ≤ years then
        let wait5 := calculateCompoundInterest initial monthly returnRate (years - 5) frequency
        [{ label := "Wait 5 Years", years := years - 5, totalBalance := wait5.totalBalance,
           highlight := false, missedAmount := startNow.totalBalance - wait5.totalBalance }]
      else []
    let l10 : List ComparisonEntry :=
      if 10 ≤ years then
        let wait10 := calculateCompoundInterest initial monthly returnRate (years - 10) frequency
        [{ label := "Wait 10 Years", years := years - 10, totalBalance := wait10.totalBalance,
           highlight := false, missedAmount := startNow.totalBalance - wait10.totalBalance }]
      else []
    some ([s0] ++ l5 ++ l10)
  else none

/-- The account-type select values; `Unselected` is the empty string. -/
inductive AccountType
  | TFSA
  | RRSP
  | FHSA
  | RESP
  | General
  | Unselected
deriving DecidableEq, Repr

/-- The `effectiveMonthly` memo of the account-aware page variant: converts the
account-specific annual contribution field to a monthly-equivalent figure; for
RESP the CESG grant (20% of the annual contribution, capped at 500) is added
before the conversion. -/
def effectiveMonthly (accountType : AccountType)
    (tfsaAnnualContribution rrspAnnualContribution fhsaAnnualContribution
      respAnnualContribution monthlyContribution : ℚ) : ℚ :=
  match accountType with
  | .TFSA => tfsaAnnualContribution / 12
  | .RRSP => rrspAnnualContribution / 12
  | .FHSA => fhsaAnnualContribution / 12
  | .RESP =>
      let annual := respAnnualContribution
      let cesg := min (annual * (20 / 100)) 500
      (annual + cesg) / 12
  | .General => monthlyContribution
  | .Unselected => monthlyContribution

/-- The `results` memo of the account-aware page variant: same as `results`
but the monthly contribution is the account-normalized `effectiveMonthly`. -/
def resultsWithAccount (accountType : AccountType)
    (initial tfsaAnnual rrspAnnual fhsaAnnual respAnnual monthlyContribution : ℚ)
    (years : ℕ) (returnRate : ℚ) (frequency : CompoundFrequency) :
    Option ProjectionResult :=
  let monthly := effectiveMonthly accountType tfsaAnnual rrspAnnual fhsaAnnual
    respAnnual monthlyContribution
  if isValidInputs initial monthly years returnRate then
    some (calculateCompoundInterest initial monthly returnRate years frequency)
  else none

/-- The warning messages the `accountWarning` memo of the account-aware page
variant can produce, abstracted to the numeric payloads the message strings
interpolate. -/
inductive AccountAdvisory
  | tfsaAnnualLimit
  | rrspOverLimit (annual limit : ℚ)
  | fhsaAnnualLimit (annual : ℚ)
  | fhsaLifetimeInitial (initial : ℚ)
  | fhsaLifetimeProjected (yearsUntilLimit : ℤ)
  | respLifetimeProjected (lifetimeTotal : ℚ)
  | respLifetimeInitial (initial : ℚ)
deriving DecidableEq, Repr

/-- The `accountWarning` memo of the account-aware page variant. -/
def accountWarning (accountType : AccountType)
    (initial tfsaAnnual rrspIncome rrspAnnual fhsaAnnual respAnnual years : ℚ) :
    Option AccountAdvisory :=
  match accountType with
  | .Unselected => none
  | .General => none
  | .TFSA =>
      if 7000 < tfsaAnnual then some .tfsaAnnualLimit else none
  | .RRSP =>
      if 0 < rrspAnnual ∧ 0 < rrspIncome then
        let limit := min (rrspIncome * (18 / 100)) 31560
        if limit < rrspAnnual then some (.rrspOverLimit rrspAnnual limit) else none
      else none
  | .FHSA =>
      if 8000 < fhsaAnnual then some (.fhsaAnnualLimit fhsaAnnual)
      else if 40000 < initial then some (.fhsaLifetimeInitial initial)
      else if 0 < fhsaAnnual ∧ 40000 < fhsaAnnual * years then
        some (.fhsaLifetimeProjected ⌊(40000 : ℚ) / fhsaAnnual⌋)
      else none
  | .RESP =>
      if 0 < respAnnual ∧ 50000 < respAnnual * years then
        some (.respLifetimeProjected (respAnnual * years))
      else if 50000 < initial then some (.respLifetimeInitial initial)
      else none

/-- The within-limit confirmation messages of the `accountConfirmation` memo,
abstracted to their numeric payloads. -/
inductive AccountOkMessage
  | tfsaWithin (annual : ℚ)
  | rrspWithin (annual limit : ℚ)
  | fhsaWithin (annual : ℚ)
  | respWithin (annual : ℚ)
deriving DecidableEq, Repr

/-- The `accountConfirmation` memo of the account-aware page variant. -/
def accountConfirmation (accountType : AccountType)
    (tfsaAnnual rrspIncome rrspAnnual fhsaAnnual respAnnual years : ℚ) :
    Option AccountOkMessage :=
  match accountType with
  | .TFSA =>
      if 0 < tfsaAnnual ∧ tfsaAnnual ≤ 7000 then some (.tfsaWithin tfsaAnnual) else none
  | .RRSP =>
      if 0 < rrspAnnual ∧ 0 < rrspIncome then
        let limit := min (rrspIncome * (18 / 100)) 31560
        if rrspAnnual ≤ limit then some (.rrspWithin rrspAnnual limit) else none
      else none
  | .FHSA =>
      if 0 < fhsaAnnual ∧ fhsaAnnual ≤ 8000 ∧ fhsaAnnual * years ≤ 40000 then
        some (.fhsaWithin fhsaAnnual)
      else none
  | .RESP =>
      if 0 < respAnnual ∧ respAnnual * years ≤ 50000 then
        some (.respWithin respAnnual)
      else none
  | .General => none
  | .Unselected => none

/-- Formulated from the claim wording for the FHSA evaluator (three checks in
the stated order, first match returned), to be compared with the source
definition `accountWarning`. -/
def fhsaWarningClaim (initial fhsaAnnual years : ℚ) : Option AccountAdvisory :=
  if 8000 < fhsaAnnual then some (.fhsaAnnualLimit fhsaAnnual)
  else if 40000 < initial then some (.fhsaLifetimeInitial initial)
  else if 40000 < fhsaAnnual * years then
    some (.fhsaLifetimeProjected ⌊(40000 : ℚ) / fhsaAnnual⌋)
  else none

/-! ### Helper lemmas about the engine arithmetic -/

lemma freqPerYear_pos (f : CompoundFrequency) : 0 < getCompoundFrequencyPerYear f := by
  cases f <;> simp [getCompoundFrequencyPerYear]

lemma pmt_mul_freq (m : ℚ) (f : CompoundFrequency) :
    getContributionPerPeriod m f * (getCompoundFrequencyPerYear f : ℚ) = m * 12 := by
  cases f <;> norm_num [getContributionPerPeriod, getCompoundFrequencyPerYear] <;> ring

lemma pmt_nonneg {m : ℚ} (hm : 0 ≤ m) (f : CompoundFrequency) :
    0 ≤ getContributionPerPeriod m f := by
  cases f <;> unfold getContributionPerPeriod <;> linarith

lemma one_le_base {R : ℚ} (hR : 0 ≤ R) (f : CompoundFrequency) :
    1 ≤ 1 + (R / 100) / (getCompoundFrequencyPerYear f : ℚ) := by
  have h : 0 ≤ (R / 100) / (getCompoundFrequencyPerYear f : ℚ) :=
    div_nonneg (div_nonneg hR (by norm_num)) (Nat.cast_nonneg _)
  linarith

lemma totalBalance_def (P m R : ℚ) (t : ℕ) (f : CompoundFrequency) :
    (calculateCompoundInterest P m R t f).totalBalance =
      P * (1 + (R / 100) / (getCompoundFrequencyPerYear f : ℚ)) ^
          (getCompoundFrequencyPerYear f * t)
      + (if 0 < R / 100 then
          getContributionPerPeriod m f *
            (((1 + (R / 100) / (getCompoundFrequencyPerYear f : ℚ)) ^
                (getCompoundFrequencyPerYear f * t) - 1)
              / ((R / 100) / (getCompoundFrequencyPerYear f : ℚ)))
        else getContributionPerPeriod m f * (getCompoundFrequencyPerYear f : ℚ) * (t : ℚ)) :=
  rfl

lemma totalContributed_def (P m R : ℚ) (t : ℕ) (f : CompoundFrequency) :
    (calculateCompoundInterest P m R t f).totalContributed = P + m * 12 * (t : ℚ) := rfl

lemma totalInterest_def (P m R : ℚ) (t : ℕ) (f : CompoundFrequency) :
    (calculateCompoundInterest P m R t f).totalInterest =
      (calculateCompoundInterest P m R t f).totalBalance -
        (calculateCompoundInterest P m R t f).totalContributed := rfl

lemma totalBalance_mono {P m R : ℚ} (hP : 0 ≤ P) (hm : 0 ≤ m) (hR : 0 ≤ R)
    (f : CompoundFrequency) {t₁ t₂ : ℕ} (h : t₁ ≤ t₂) :
    (calculateCompoundInterest P m R t₁ f).totalBalance ≤
      (calculateCompoundInterest P m R t₂ f).totalBalance := by
  rw [totalBalance_def, totalBalance_def]
  have hb1 : 1 ≤ 1 + (R / 100) / (getCompoundFrequencyPerYear f : ℚ) := one_le_base hR f
  have hpow : (1 + (R / 100) / (getCompoundFrequencyPerYear f : ℚ)) ^
        (getCompoundFrequencyPerYear f * t₁) ≤
      (1 + (R / 100) / (getCompoundFrequencyPerYear f : ℚ)) ^
        (getCompoundFrequencyPerYear f * t₂) :=
    pow_le_pow_right₀ hb1 (Nat.mul_le_mul_left _ h)
  have hPMT : 0 ≤ getContributionPerPeriod m f := pmt_nonneg hm f
  apply add_le_add (mul_le_mul_of_nonneg_left hpow hP)
  by_cases hr : 0 < R / 100
  · rw [if_pos hr, if_pos hr]
    have hrn : 0 < (R / 100) / (getCompoundFrequencyPerYear f : ℚ) := by
      apply div_pos hr
      exact_mod_cast freqPerYear_pos f
    exact mul_le_mul_of_nonneg_left
      ((div_le_div_iff_of_pos_right hrn).mpr (by linarith)) hPMT
  · rw [if_neg hr, if_neg hr]
    exact mul_le_mul_of_nonneg_left (by exact_mod_cast h)
      (mul_nonneg hPMT (Nat.cast_nonneg _))

lemma totalContributed_le_totalBalance {P m R : ℚ} (hP : 0 ≤ P) (hm : 0 ≤ m)
    (hR : 0 ≤ R) (t : ℕ) (f : CompoundFrequency) :
    (calculateCompoundInterest P m R t f).totalContributed ≤
      (calculateCompoundInterest P m R t f).totalBalance := by
  rw [totalContributed_def, totalBalance_def]
  have hb1 : 1 ≤ 1 + (R / 100) / (getCompoundFrequencyPerYear f : ℚ) := one_le_base hR f
  have hPMT : 0 ≤ getContributionPerPeriod m f := pmt_nonneg hm f
  have hprinc : P ≤ P * (1 + (R / 100) / (getCompoundFrequencyPerYear f : ℚ)) ^
      (getCompoundFrequencyPerYear f * t) :=
    le_mul_of_one_le_right hP (one_le_pow₀ hb1)
  apply add_le_add hprinc
  by_cases hr : 0 < R / 100
  · rw [if_pos hr]
    have hrn : 0 < (R / 100) / (getCompoundFrequencyPerYear f : ℚ) := by
      apply div_pos hr
      exact_mod_cast freqPerYear_pos f
    have hbern : 1 + ((getCompoundFrequencyPerYear f * t : ℕ) : ℚ) *
          ((R / 100) / (getCompoundFrequencyPerYear f : ℚ)) ≤
        (1 + (R / 100) / (getCompoundFrequencyPerYear f : ℚ)) ^
          (getCompoundFrequencyPerYear f * t) :=
      one_add_mul_le_pow (by linarith) _
    have hdiv : ((getCompoundFrequencyPerYear f * t : ℕ) : ℚ) ≤
        ((1 + (R / 100) / (getCompoundFrequencyPerYear f : ℚ)) ^
            (getCompoundFrequencyPerYear f * t) - 1)
          / ((R / 100) / (getCompoundFrequencyPerYear f : ℚ)) :=
      (le_div_iff₀ hrn).mpr (by linarith)
    have hstep : getContributionPerPeriod m f *
          ((getCompoundFrequencyPerYear f * t : ℕ) : ℚ) ≤
        getContributionPerPeriod m f *
          (((1 + (R / 100) / (getCompoundFrequencyPerYear f : ℚ)) ^
              (getCompoundFrequencyPerYear f * t) - 1)
            / ((R / 100) / (getCompoundFrequencyPerYear f : ℚ))) :=
      mul_le_mul_of_nonneg_left hdiv hPMT
    calc m * 12 * (t : ℚ)
        = getContributionPerPeriod m f * (getCompoundFrequencyPerYear f : ℚ) * (t : ℚ) := by
          rw [pmt_mul_freq]
      _ = getContributionPerPeriod m f *
            ((getCompoundFrequencyPerYear f * t : ℕ) : ℚ) := by
          push_cast
          ring
      _ ≤ _ := hstep
  · rw [if_neg hr]
    rw [show getContributionPerPeriod m f * (getCompoundFrequencyPerYear f : ℚ) * (t : ℚ)
        = m * 12 * (t : ℚ) by rw [pmt_mul_freq]]

/-! ### Claim theorems -/

/-- C1: for every valid input (P ≥ 0, M ≥ 0, R in [0,100], T ≥ 1, frequency F),
`calculateCompoundInterest` returns totalContributed = P + M·12·T (always the
monthly figure times 12, independent of F), totalInterest = totalBalance −
totalContributed, and totalBalance = P·(1 + r/n)^(n·T) + annuityValue with
r = R/100, n = periodsPerYear(F), PMT = perPeriodContribution(M, F), where
annuityValue = PMT·((1 + r/n)^(n·T) − 1)/(r/n) when r > 0 and PMT·n·T when
r = 0. -/
theorem claim_C1 (P m R : ℚ) (T : ℕ) (f : CompoundFrequency)
    (hP : 0 ≤ P) (hm : 0 ≤ m) (hR0 : 0 ≤ R) (hR1 : R ≤ 100) (hT : 1 ≤ T) :
    (calculateCompoundInterest P m R T f).totalContributed = P + m * 12 * (T : ℚ)
    ∧ (calculateCompoundInterest P m R T f).totalInterest =
        (calculateCompoundInterest P m R T f).totalBalance -
          (calculateCompoundInterest P m R T f).totalContributed
    ∧ (0 < R → (calculateCompoundInterest P m R T f).totalBalance =
        P * (1 + (R / 100) / (getCompoundFrequencyPerYear f : ℚ)) ^
            (getCompoundFrequencyPerYear f * T)
          + getContributionPerPeriod m f *
              (((1 + (R / 100) / (getCompoundFrequencyPerYear f : ℚ)) ^
                  (getCompoundFrequencyPerYear f * T) - 1)
                / ((R / 100) / (getCompoundFrequencyPerYear f : ℚ))))
    ∧ (R = 0 → (calculateCompoundInterest P m R T f).totalBalance =
        P * (1 + (R / 100) / (getCompoundFrequencyPerYear f : ℚ)) ^
            (getCompoundFrequencyPerYear f * T)
          + getContributionPerPeriod m f * (getCompoundFrequencyPerYear f : ℚ) * (T : ℚ)) := by
  refine ⟨rfl, rfl, ?_, ?_⟩
  · intro hR
    have hr : 0 < R / 100 := div_pos hR (by norm_num)
    rw [totalBalance_def, if_pos hr]
  · intro hR
    subst hR
    rw [totalBalance_def, if_neg (by norm_num)]

/-- Witness for C1 at P=100, M=10, R=100, T=2, F=Monthly. -/
theorem claim_C1_witness :
    (calculateCompoundInterest 100 10 100 2 CompoundFrequency.Monthly).totalContributed
      = 100 + 10 * 12 * ((2 : ℕ) : ℚ) :=
  (claim_C1 100 10 100 2 CompoundFrequency.Monthly (by norm_num) (by norm_num)
    (by norm_num) (by norm_num) (by norm_num)).1

/-- C5: at zero annual rate and every frequency (including Daily), the engine
returns exactly totalBalance = P + M·12·T in exact arithmetic, so
totalInterest = 0, for all P ≥ 0, M ≥ 0, T ≥ 0. -/
theorem claim_C5 (P m : ℚ) (T : ℕ) (f : CompoundFrequency)
    (hP : 0 ≤ P) (hm : 0 ≤ m) :
    (calculateCompoundInterest P m 0 T f).totalBalance = P + m * 12 * (T : ℚ)
    ∧ (calculateCompoundInterest P m 0 T f).totalInterest = 0 := by
  have hb : (calculateCompoundInterest P m 0 T f).totalBalance = P + m * 12 * (T : ℚ) := by
    rw [totalBalance_def, if_neg (by norm_num)]
    rw [show getContributionPerPeriod m f * (getCompoundFrequencyPerYear f : ℚ) * (T : ℚ)
        = m * 12 * (T : ℚ) by rw [pmt_mul_freq]]
    norm_num
  refine ⟨hb, ?_⟩
  rw [totalInterest_def, hb, totalContributed_def]
  ring

/-- Witness for C5 at P=100, M=10, T=3, F=Daily. -/
theorem claim_C5_witness :
    (calculateCompoundInterest 100 10 0 3 CompoundFrequency.Daily).totalInterest = 0 :=
  (claim_C5 100 10 3 CompoundFrequency.Daily (by norm_num) (by norm_num)).2

/-- C10 (implicit): for every input with P ≥ 0, M ≥ 0, R in [0,100], any T and
any frequency, totalInterest ≥ 0 (totalBalance ≥ totalContributed); and the
per-period contribution times the periods per year recovers M·12 for every
frequency. -/
theorem claim_C10 (P m R : ℚ) (T : ℕ) (f : CompoundFrequency)
    (hP : 0 ≤ P) (hm : 0 ≤ m) (hR0 : 0 ≤ R) (hR1 : R ≤ 100) :
    0 ≤ (calculateCompoundInterest P m R T f).totalInterest
    ∧ (calculateCompoundInterest P m R T f).totalContributed ≤
        (calculateCompoundInterest P m R T f).totalBalance
    ∧ ∀ g : CompoundFrequency,
        getContributionPerPeriod m g * (getCompoundFrequencyPerYear g : ℚ) = m * 12 := by
  have hle := totalContributed_le_totalBalance hP hm hR0 T f
  refine ⟨?_, hle, fun g => pmt_mul_freq m g⟩
  rw [totalInterest_def]
  linarith

/-- Witness for C10 at P=50, M=20, R=7, T=30, F=Quarterly. -/
theorem claim_C10_witness :
    0 ≤ (calculateCompoundInterest 50 20 7 30 CompoundFrequency.Quarterly).totalInterest :=
  (claim_C10 50 20 7 30 CompoundFrequency.Quarterly (by norm_num) (by norm_num)
    (by norm_num) (by norm_num)).1

/-- C2: an input record is valid exactly under the stated condition
((P > 0 or M > 0) and T in [1,100] and R in [0,100]); for every input failing
it, the projection result, the trajectory series and the comparison-scenario
list are all `none`. -/
theorem claim_C2 (initial monthly : ℚ) (years : ℕ) (R : ℚ) (f : CompoundFrequency) :
    (isValidInputs initial monthly years R = true ↔
      ((0 < initial ∨ 0 < monthly) ∧ 1 ≤ years ∧ years ≤ 100 ∧ 0 ≤ R ∧ R ≤ 100))
    ∧ (isValidInputs initial monthly years R = false →
        results initial monthly years R f = none
        ∧ chartData initial monthly years R f = none
        ∧ comparisonScenarios initial monthly years R f = none) := by
  constructor
  · rw [isValidInputs]
    simp only [Bool.and_eq_true, Bool.or_eq_true, decide_eq_true_eq]
    constructor
    · rintro ⟨⟨⟨⟨h1, h2⟩, h3⟩, h4⟩, h5⟩
      exact ⟨h1, h2, h3, h4, h5⟩
    · rintro ⟨h1, h2, h3, h4, h5⟩
      exact ⟨⟨⟨⟨h1, h2⟩, h3⟩, h4⟩, h5⟩
  · intro h
    refine ⟨?_, ?_, ?_⟩ <;> simp [results, chartData, comparisonScenarios, h]

/-- Witness for C2 at the invalid input P=0, M=0, T=30, R=7: all outputs none. -/
theorem claim_C2_witness :
    results 0 0 30 7 CompoundFrequency.Monthly = none
    ∧ chartData 0 0 30 7 CompoundFrequency.Monthly = none
    ∧ comparisonScenarios 0 0 30 7 CompoundFrequency.Monthly = none :=
  (claim_C2 0 0 30 7 CompoundFrequency.Monthly).2 (by decide)

/-- C3: for every valid input the trajectory has exactly T+1 points, the point
at index i is for year i (so years 0..T in order), and its last point agrees
with the direct projection on totalBalance and totalContributed. -/
theorem claim_C3 (P m R : ℚ) (T : ℕ) (f : CompoundFrequency)
    (hv : isValidInputs P m T R = true) :
    (calculateYearlyData P m R T f).length = T + 1
    ∧ (∀ i, ∀ hi : i < (calculateYearlyData P m R T f).length,
        ((calculateYearlyData P m R T f)[i]).year = i)
    ∧ ∀ hT : T < (calculateYearlyData P m R T f).length,
        ((calculateYearlyData P m R T f)[T]).totalBalance =
          (calculateCompoundInterest P m R T f).totalBalance
        ∧ ((calculateYearlyData P m R T f)[T]).totalContributed =
          (calculateCompoundInterest P m R T f).totalContributed := by
  have hget : ∀ i, ∀ hi : i < (calculateYearlyData P m R T f).length,
      (calculateYearlyData P m R T f)[i] = yearlyPoint P m R f T i := by
    intro i hi
    simp [calculateYearlyData]
  refine ⟨by simp [calculateYearlyData], ?_, ?_⟩
  · intro i hi
    rw [hget i hi]
    rfl
  · intro hT
    rw [hget T hT]
    exact ⟨rfl, rfl⟩

/-- Witness for C3 at P=1, M=0, R=0, T=2, F=Monthly. -/
theorem claim_C3_witness :
    (calculateYearlyData 1 0 0 2 CompoundFrequency.Monthly).length = 2 + 1 :=
  (claim_C3 1 0 0 2 CompoundFrequency.Monthly (by decide)).1

/-- C4: for fixed P ≥ 0, M ≥ 0, R in [0,100] and frequency F, totalBalance is
non-decreasing in the horizon; consequently whenever R > 0 and (M > 0 or
P > 0) the comparison scenarios are ordered "Start Now" ≥ "Wait 5 Years" ≥
"Wait 10 Years" in totalBalance and every scenario's missedAmount is ≥ 0. -/
theorem claim_C4 (P m R : ℚ) (f : CompoundFrequency)
    (hP : 0 ≤ P) (hm : 0 ≤ m) (hR0 : 0 ≤ R) (hR1 : R ≤ 100) :
    (∀ t₁ t₂ : ℕ, t₁ ≤ t₂ →
        (calculateCompoundInterest P m R t₁ f).totalBalance ≤
          (calculateCompoundInterest P m R t₂ f).totalBalance)
    ∧ ∀ (years : ℕ) (l : List ComparisonEntry), 0 < R → (0 < m ∨ 0 < P) →
        comparisonScenarios P m years R f = some l →
        l.Pairwise (fun a b => b.totalBalance ≤ a.totalBalance)
        ∧ ∀ s ∈ l, 0 ≤ s.missedAmount := by
  have mono : ∀ t₁ t₂ : ℕ, t₁ ≤ t₂ →
      (calculateCompoundInterest P m R t₁ f).totalBalance ≤
        (calculateCompoundInterest P m R t₂ f).totalBalance :=
    fun t₁ t₂ h => totalBalance_mono hP hm hR0 f h
  refine ⟨mono, ?_⟩
  intro years l hR hMP hl
  have b5 := mono (years - 5) years (Nat.sub_le years 5)
  have b10 := mono (years - 10) years (Nat.sub_le years 10)
  have b510 := mono (years - 10) (years - 5) (by omega)
  simp only [comparisonScenarios] at hl
  by_cases hv : isValidInputs P m years R
  · rw [if_pos hv] at hl
    by_cases h5 : 5 ≤ years
    · by_cases h10 : 10 ≤ years
      · rw [if_pos h5, if_pos h10] at hl
        obtain rfl := (Option.some.injEq _ _).mp hl
        constructor
        · simp only [List.cons_append, List.nil_append]
          refine List.Pairwise.cons ?_ (List.Pairwise.cons ?_
            (List.Pairwise.cons ?_ List.Pairwise.nil))
          · intro a ha
            rcases List.mem_cons.mp ha with rfl | ha
            · exact b5
            · rcases List.mem_singleton.mp ha with rfl
              exact b10
          · intro a ha
            rcases List.mem_singleton.mp ha with rfl
            exact b510
          · intro a ha
            exact absurd ha (List.not_mem_nil a)
        · intro s hs
          simp only [List.cons_append, List.nil_append, List.mem_cons,
            List.mem_singleton, List.not_mem_nil, or_false] at hs
          rcases hs with rfl | rfl | rfl
          · exact le_refl 0
          · exact sub_nonneg.mpr b5
          · exact sub_nonneg.mpr b10
      · rw [if_pos h5, if_neg h10] at hl
        obtain rfl := (Option.some.injEq _ _).mp hl
        constructor
        · simp only [List.cons_append, List.nil_append, List.append_nil]
          refine List.Pairwise.cons ?_ (List.Pairwise.cons ?_ List.Pairwise.nil)
          · intro a ha
            rcases List.mem_singleton.mp ha with rfl
            exact b5
          · intro a ha
            exact absurd ha (List.not_mem_nil a)
        · intro s hs
          simp only [List.cons_append, List.nil_append, List.append_nil,
            List.mem_cons, List.mem_singleton, List.not_mem_nil, or_false] at hs
          rcases hs with rfl | rfl
          · exact le_refl 0
          · exact sub_nonneg.mpr b5
    · have h10 : ¬ 10 ≤ years := by omega
      rw [if_neg h5, if_neg h10] at hl
      obtain rfl := (Option.some.injEq _ _).mp hl
      constructor
      · simp only [List.append_nil]
        exact List.Pairwise.cons (fun a ha => absurd ha (List.not_mem_nil a))
          List.Pairwise.nil
      · intro s hs
        simp only [List.append_nil, List.mem_singleton] at hs
        subst hs
        exact le_refl 0
  · rw [if_neg hv] at hl
    cases hl

/-- Witness for C4 at P=100, M=0, R=100, F=Annually. -/
theorem claim_C4_witness :
    (calculateCompoundInterest 100 0 100 1 CompoundFrequency.Annually).totalBalance ≤
      (calculateCompoundInterest 100 0 100 2 CompoundFrequency.Annually).totalBalance :=
  (claim_C4 100 0 100 CompoundFrequency.Annually (by norm_num) (by norm_num)
    (by norm_num) (by norm_num)).1 1 2 (by norm_num)

/-- C6: for the RESP category, the contribution fed to the calculator is the
annual contribution plus the CESG grant min(annual·0.20, 500), divided by 12;
for every annual ≥ 0 the effective annual inflow (12 × the monthly figure) is
at most annual·1.20 and the grant component is at most 500. -/
theorem claim_C6 (initial tfsaA rrspA fhsaA respA monthly : ℚ) (years : ℕ)
    (R : ℚ) (f : CompoundFrequency) (h : 0 ≤ respA) :
    effectiveMonthly AccountType.RESP tfsaA rrspA fhsaA respA monthly
      = (respA + min (respA * (20 / 100)) 500) / 12
    ∧ resultsWithAccount AccountType.RESP initial tfsaA rrspA fhsaA respA monthly years R f
      = (if isValidInputs initial ((respA + min (respA * (20 / 100)) 500) / 12) years R then
          some (calculateCompoundInterest initial
            ((respA + min (respA * (20 / 100)) 500) / 12) R years f)
        else none)
    ∧ 12 * effectiveMonthly AccountType.RESP tfsaA rrspA fhsaA respA monthly
        ≤ respA * (120 / 100)
    ∧ min (respA * (20 / 100)) 500 ≤ 500 := by
  refine ⟨rfl, rfl, ?_, min_le_right _ _⟩
  have h1 : min (respA * (20 / 100)) 500 ≤ respA * (20 / 100) := min_le_left _ _
  have h2 : 12 * ((respA + min (respA * (20 / 100)) 500) / 12)
      = respA + min (respA * (20 / 100)) 500 := by ring
  rw [show effectiveMonthly AccountType.RESP tfsaA rrspA fhsaA respA monthly
      = (respA + min (respA * (20 / 100)) 500) / 12 from rfl, h2]
  linarith

/-- Witness for C6 at an annual RESP contribution of 2500 (grant hits the 500
cap exactly; effective annual inflow 3000 ≤ 2500 · 1.20). -/
theorem claim_C6_witness :
    12 * effectiveMonthly AccountType.RESP 0 0 0 2500 0 ≤ 2500 * (120 / 100) :=
  (claim_C6 0 0 0 0 2500 0 1 0 CompoundFrequency.Monthly (by norm_num)).2.2.1

/-- C7: for the FHSA category the evaluator performs exactly the three checks
of the claim in the stated order and returns the first match: annual > 8000,
then initial > 40000, then annual·years > 40000 (reporting
⌊40000 / annual⌋ as the crossing year), else no warning. -/
theorem claim_C7 (initial tfsaA rrspI rrspA fhsaA respA years : ℚ)
    (h : 0 ≤ fhsaA) :
    accountWarning AccountType.FHSA initial tfsaA rrspI rrspA fhsaA respA years
      = fhsaWarningClaim initial fhsaA years := by
  simp only [accountWarning, fhsaWarningClaim]
  by_cases h1 : 8000 < fhsaA
  · rw [if_pos h1, if_pos h1]
  · rw [if_neg h1, if_neg h1]
    by_cases h2 : 40000 < initial
    · rw [if_pos h2, if_pos h2]
    · rw [if_neg h2, if_neg h2]
      by_cases h3 : 40000 < fhsaA * years
      · have h0 : 0 < fhsaA := by
          rcases h.lt_or_eq with h0 | h0
          · exact h0
          · exfalso
            rw [← h0, zero_mul] at h3
            linarith
        have hcond : 0 < fhsaA ∧ 40000 < fhsaA * years := ⟨h0, h3⟩
        rw [if_pos hcond, if_pos h3]
      · have hcond : ¬(0 < fhsaA ∧ 40000 < fhsaA * years) := fun hc => h3 hc.2
        rw [if_neg hcond, if_neg h3]

/-- Witness for C7: annual 5000 over 10 years crosses the 40000 lifetime cap
in year ⌊40000/5000⌋ = 8. -/
theorem claim_C7_witness :
    accountWarning AccountType.FHSA 0 0 0 0 5000 0 10
      = some (AccountAdvisory.fhsaLifetimeProjected 8) :=
  (claim_C7 0 0 0 0 5000 0 10 (by norm_num)).trans (by norm_num [fhsaWarningClaim])

/-- C8: for the RRSP category with both income and contribution positive, the
warning carrying the cap min(income·0.18, 31560) is produced iff the annual
contribution exceeds the cap, the confirmation iff it is within the cap, and
with either field missing or non-positive no advisory is produced. -/
theorem claim_C8 (initial tfsaA fhsaA respA years income annual : ℚ) :
    (0 < income → 0 < annual →
      (accountWarning AccountType.RRSP initial tfsaA income annual fhsaA respA years
          = some (AccountAdvisory.rrspOverLimit annual (min (income * (18 / 100)) 31560))
        ↔ min (income * (18 / 100)) 31560 < annual)
      ∧ (accountConfirmation AccountType.RRSP tfsaA income annual fhsaA respA years
          = some (AccountOkMessage.rrspWithin annual (min (income * (18 / 100)) 31560))
        ↔ annual ≤ min (income * (18 / 100)) 31560))
    ∧ ((income ≤ 0 ∨ annual ≤ 0) →
        accountWarning AccountType.RRSP initial tfsaA income annual fhsaA respA years = none
        ∧ accountConfirmation AccountType.RRSP tfsaA income annual fhsaA respA years = none) := by
  constructor
  · intro hI hA
    have hcond : 0 < annual ∧ 0 < income := ⟨hA, hI⟩
    simp only [accountWarning, accountConfirmation, if_pos hcond]
    constructor
    · split_ifs with hc
      · simp [hc]
      · simp [hc]
    · split_ifs with hc
      · simp [hc]
      · simp [hc]
  · intro h
    have hn : ¬(0 < annual ∧ 0 < income) := by
      rintro ⟨ha, hi⟩
      rcases h with h | h <;> linarith
    simp only [accountWarning, accountConfirmation]
    rw [if_neg hn, if_neg hn]
    exact ⟨rfl, rfl⟩

/-- Witness for C8 at income 100000, contribution 20000: the cap is 18000 and
the over-limit warning fires. -/
theorem claim_C8_witness :
    accountWarning AccountType.RRSP 0 0 100000 20000 0 0 10
      = some (AccountAdvisory.rrspOverLimit 20000 (min ((100000 : ℚ) * (18 / 100)) 31560)) :=
  ((claim_C8 0 0 0 0 10 100000 20000).1 (by norm_num) (by norm_num)).1.mpr
    (by norm_num [min_def])

/-- C9: for the TFSA category, the warning citing the fixed 7000 cap is
produced iff the annual contribution exceeds 7000, and the confirmation iff it
is positive and at most 7000; concretely 7500 yields the warning and 6000 the
confirmation with no warning. -/
theorem claim_C9 (initial tfsaA rrspI rrspA fhsaA respA years : ℚ) :
    (accountWarning AccountType.TFSA initial tfsaA rrspI rrspA fhsaA respA years
        = some AccountAdvisory.tfsaAnnualLimit ↔ 7000 < tfsaA)
    ∧ (accountConfirmation AccountType.TFSA tfsaA rrspI rrspA fhsaA respA years
        = some (AccountOkMessage.tfsaWithin tfsaA) ↔ 0 < tfsaA ∧ tfsaA ≤ 7000)
    ∧ accountWarning AccountType.TFSA initial 7500 rrspI rrspA fhsaA respA years
        = some AccountAdvisory.tfsaAnnualLimit
    ∧ accountWarning AccountType.TFSA initial 6000 rrspI rrspA fhsaA respA years = none
    ∧ accountConfirmation AccountType.TFSA 6000 rrspI rrspA fhsaA respA years
        = some (AccountOkMessage.tfsaWithin 6000) := by
  refine ⟨?_, ?_, ?_, ?_, ?_⟩
  · simp only [accountWarning]
    split_ifs with hc
    · simp [hc]
    · simp [hc]
  · simp only [accountConfirmation]
    split_ifs with hc
    · simp [hc]
    · simp [hc]
  · simp only [accountWarning]
    norm_num
  · simp only [accountWarning]
    norm_num
  · simp only [accountConfirmation]
    norm_num

end Stackd
